import Mathlib

/-!
Verification of the message-send / retry / persistence pipeline of the chat
application.  The repository holds two near-duplicate single-page front ends:

* `src/App.js` — calls the generative-language endpoint directly
  (`handleSendMessage`, lines 82-155; snapshot handler, lines 55-69);
* `src/src/App.js` — proxy-calling variants: the one with
  `handleSendMessage` at lines 88-153 (user append inside the try, whose
  catch references a try-scoped const), and the one with `callGeminiAPI`
  at lines 401-412 and `handleSendMessage` at lines 415-470.

These are embedded below (namespaces `SrcApp`, `ProxyAppA` for the
lines-88-153 variant, and `ProxyApp` for the lines-415-470 variant).  The
external collaborators (document store, remote endpoint) are modelled as
explicit state and oracles; everything the pipeline does — guards, message
construction, transcript assembly, response extraction, the error paths —
is translated directly from the source.
-/

/-- The sender field of a persisted message: the enum of user and bot. -/
inductive Sender where
  | user
  | bot
deriving DecidableEq, Repr

/-- Role tag of a transcript turn: `user` or `model`. -/
inductive Role where
  | user
  | model
deriving DecidableEq, Repr

/-- A persisted chat message.  `id` and `timestamp` are store-assigned on
write (`addDoc` + `serverTimestamp()`); the JS objects of `src/App.js` carry
no `isError` field, which is modelled as `isError = false` (in JS an absent
field reads as a falsy `undefined`). -/
structure Message where
  id : String
  text : String
  sender : Sender
  timestamp : Nat
  isError : Bool
deriving DecidableEq, Repr

/-- One turn of the transcript sent to the completion endpoint: a role tag
with a single text part. -/
structure Turn where
  role : Role
  text : String
deriving DecidableEq, Repr

/-- A text part of a response candidate. -/
structure TextPart where
  text : String
deriving DecidableEq, Repr

/-- `content` object of a response candidate; the `parts` field may be
missing (the JS code checks `content.parts &&` / `content?.parts`). -/
structure Content where
  parts : Option (List TextPart)
deriving DecidableEq, Repr

/-- One candidate of the response payload; `content` may be missing. -/
structure Candidate where
  content : Option Content
deriving DecidableEq, Repr

/-- The JSON payload of a completion response: a list of candidates, each
with content holding a list of text parts, every level possibly missing or
empty. -/
structure GenerateContentResult where
  candidates : Option (List Candidate)
deriving DecidableEq, Repr

/-- Outcome of one `fetch` of the completion endpoint: either an HTTP
response (status, raw body text, parsed body) or a rejected promise
(network failure). -/
inductive FetchOutcome where
  | response (status : Nat) (bodyText : String) (body : GenerateContentResult)
  | networkFailure
deriving DecidableEq, Repr

/-- `response.ok`: status in the 2xx class (fetch defines ok as 200-299). -/
def responseOk (status : Nat) : Bool :=
  200 ≤ status && status < 300

/-- `true` when the fetch outcome takes the error path of the JS code:
a rejected promise or a non-ok status. -/
def fetchFails : FetchOutcome → Bool
  | FetchOutcome.networkFailure => true
  | FetchOutcome.response status _ _ => !(responseOk status)

/-- JavaScript `String.prototype.trim`: strip whitespace from both ends.
(`String.trim` of the Lean library is extensionally the same but does not
reduce in the kernel, so the char-list form is used.) -/
def jsTrim (s : String) : String :=
  String.mk (List.reverse (List.dropWhile Char.isWhitespace
    (List.reverse (List.dropWhile Char.isWhitespace s.data))))

/-- The role tag chosen per message: sender bot maps to role model and
sender user maps to role user. -/
def roleOf : Sender → Role
  | Sender.bot => Role.model
  | Sender.user => Role.user

/-- The per-message mapping step of the transcript assembly: the role from
roleOf plus the message text as the single part. -/
def toTurn (m : Message) : Turn :=
  Turn.mk (roleOf m.sender) m.text

/-- The fixed fallback reply for malformed-but-200 payloads, identical in
both variants. -/
def fallbackText : String := "Sorry, I couldn\x27t generate a response."

/-- Id assigned by the store to the `n`-th document written. -/
def storeDocId (n : Nat) : String := "doc-" ++ Nat.repr n

/-- State of the external document collection scoped to one user: the
ordered list of written documents plus the id / server-timestamp
counters. -/
structure StoreState where
  docs : List Message
  nextId : Nat
  nextTs : Nat
deriving DecidableEq, Repr

/-- Modelled from the spec: the Message Store Adapter (§4.2) is the external
document store, not code under `src/`.  `append` writes exactly one record
with a store-assigned fresh `id` and a server-assigned `timestamp`; per §3
timestamps are monotone across the sequential, awaited writes of one
conversation, modelled as a strictly increasing counter. -/
def storeAppend (st : StoreState) (text : String) (sender : Sender)
    (isErr : Bool) : StoreState × Message :=
  let m : Message :=
    Message.mk (storeDocId st.nextId) text sender st.nextTs isErr
  (StoreState.mk (st.docs ++ [m]) (st.nextId + 1) (st.nextTs + 1), m)

/-- The fresh, empty message collection. -/
def emptyStore : StoreState := StoreState.mk [] 0 0

/-- Environment of a single send invocation: whether each of the (at most
three) `addDoc` calls succeeds, and the outcome of the single fetch. -/
structure SendEnv where
  userAppendOk : Bool
  fetch : FetchOutcome
  botAppendOk : Bool
  errorAppendOk : Bool
deriving DecidableEq, Repr

/-- Observable effects of one send invocation, in program order: successful
store appends and the completion-endpoint call (with the transcript it was
given). -/
inductive Event where
  | appendUser (text : String)
  | fetchCall (transcript : List Turn)
  | appendBot (text : String)
  | appendError (text : String)
deriving DecidableEq, Repr

/-- How the async `handleSendMessage` invocation ends: early-returned on the
guard, ran to completion, or rejected with an exception that escaped the
function (an uncaught failure for the caller). -/
inductive SendOutcome where
  | noOp
  | completed
  | uncaughtFailure (msg : String)
deriving DecidableEq, Repr

namespace SrcApp

/-- Component state of `src/App.js` relevant to the pipeline: `userId`,
`messages` (the in-memory list delivered by the subscription), `input`, and
the busy flag `isLoading`.  This variant has no error-indicator state. -/
structure AppState where
  userId : Option String
  messages : List Message
  input : String
  isLoading : Bool
deriving DecidableEq, Repr

/-- Result of one invocation of `handleSendMessage`: the new component
state, the new store state, the effect trace, and how the call ended. -/
structure SendResult where
  app : AppState
  store : StoreState
  events : List Event
  outcome : SendOutcome
deriving DecidableEq, Repr

/-- Text of the synthetic welcome message, `src/App.js` lines 58-63. -/
def welcomeText : String :=
  "Hello! I\x27m a general-purpose AI assistant, a simpler version of Gemini. You can ask me anything. How can I help you today?"

/-- The synthetic welcome message injected on an empty snapshot, with the
fixed id welcome-1 and sender bot. -/
def welcomeMessage : Message :=
  Message.mk "welcome-1" welcomeText Sender.bot 0 false

/-- The `onSnapshot` callback, `src/App.js` lines 55-66: an empty snapshot
is replaced by the single welcome message, otherwise the fetched messages
are taken as-is. -/
def applySnapshot (fetchedMessages : List Message) : List Message :=
  if fetchedMessages.length = 0 then [welcomeMessage] else fetchedMessages

/-- Transcript assembly, `src/App.js` lines 103-111: filter out the welcome
message, map senders to roles, then push the current input as the final
user turn. -/
def chatHistory (messages : List Message) (currentInput : String) :
    List Turn :=
  (messages.filter fun msg => msg.id != "welcome-1").map toTurn
    ++ [Turn.mk Role.user currentInput]

/-- Response extraction, `src/App.js` lines 129-134: take
`candidates[0].content.parts[0].text` when every level is present and
non-empty, otherwise keep the fixed fallback string. -/
def extractBotResponseText (result : GenerateContentResult) : String :=
  match result.candidates with
  | some (c :: _) =>
    match c.content with
    | some content =>
      match content.parts with
      | some (p :: _) => p.text
      | _ => fallbackText
    | none => fallbackText
  | _ => fallbackText

/-- The message of the error thrown on a non-ok response, line 124: the
fixed prefix followed by the numeric status. -/
def statusErrorText (status : Nat) : String :=
  "API call failed with status: " ++ Nat.repr status

/-- One fetch of the endpoint, `src/App.js` lines 117-134: a rejected fetch
propagates, a non-ok status throws, an ok status yields the extracted
text. -/
def fetchCompletion : FetchOutcome → Except String String
  | FetchOutcome.networkFailure => Except.error "Failed to fetch"
  | FetchOutcome.response status _ body =>
    if responseOk status then Except.ok (extractBotResponseText body)
    else Except.error (statusErrorText status)

/-- The completion operation as implemented: `src/App.js` contains a single
`await fetch` (line 117) and no retry loop, so each invocation consults the
endpoint oracle exactly once.  The second component is the number of
endpoint invocations made. -/
def complete (endpoint : Nat → FetchOutcome) : Except String String × Nat :=
  (fetchCompletion (endpoint 0), 1)

/-- The bot error reply persisted by the catch block, lines 146-150 (note:
the object has no `isError` field). -/
def errorReplyText : String :=
  "I\x27m having trouble connecting to my brain right now. Please try again in a moment."

/-- The catch block (lines 144-151) followed by the `finally` (152-154):
append the fixed error reply as a bot message (no `isError` flag); when
that append itself rejects, the rejection escapes the catch but `finally`
still clears the busy flag. -/
def catchBranch (app1 : AppState) (store : StoreState)
    (events : List Event) (env : SendEnv) : SendResult :=
  if env.errorAppendOk then
    let store2 := (storeAppend store errorReplyText Sender.bot false).1
    SendResult.mk (AppState.mk app1.userId app1.messages app1.input false)
      store2 (events ++ [Event.appendError errorReplyText])
      SendOutcome.completed
  else
    SendResult.mk (AppState.mk app1.userId app1.messages app1.input false)
      store events (SendOutcome.uncaughtFailure "StoreWriteError")

/-- `handleSendMessage`, `src/App.js` lines 82-155.  Guard (line 84), busy
flag and optimistic input clear (92-94), user-message append *outside* the
try block (line 98) — its rejection escapes the async function with the
busy flag still set — then transcript assembly, the single fetch, and the
bot / error append inside try/catch/finally. -/
def handleSendMessage (app : AppState) (store : StoreState) (env : SendEnv) :
    SendResult :=
  if jsTrim app.input = "" ∨ app.isLoading = true ∨ app.userId = none then
    SendResult.mk app store [] SendOutcome.noOp
  else
    let currentInput := app.input
    let app1 := AppState.mk app.userId app.messages "" true
    if env.userAppendOk = false then
      SendResult.mk app1 store []
        (SendOutcome.uncaughtFailure "StoreWriteError")
    else
      let store1 := (storeAppend store currentInput Sender.user false).1
      let history := chatHistory app.messages currentInput
      let events0 := [Event.appendUser currentInput,
        Event.fetchCall history]
      match env.fetch with
      | FetchOutcome.networkFailure => catchBranch app1 store1 events0 env
      | FetchOutcome.response status _ body =>
        if responseOk status then
          let botText := extractBotResponseText body
          if env.botAppendOk then
            let store2 := (storeAppend store1 botText Sender.bot false).1
            SendResult.mk
              (AppState.mk app1.userId app1.messages app1.input false)
              store2 (events0 ++ [Event.appendBot botText])
              SendOutcome.completed
          else catchBranch app1 store1 events0 env
        else catchBranch app1 store1 events0 env

/-- The component state observed at every suspension point of an in-flight
send (after lines 92-94 ran): busy flag set, input cleared.  A second form
submission during the first send runs `handleSendMessage` against this
state. -/
def inFlight (app : AppState) : AppState :=
  AppState.mk app.userId app.messages "" true

/-- A user id fixture for end-to-end runs (the uid is opaque to the
pipeline). -/
def uid : String := "user-1"

/-- One end-to-end successful send: the subscription has delivered the
current store contents, the user submits `input`, every store write
succeeds and the endpoint answers 200 with `body`. -/
def doSend (store : StoreState) (input : String)
    (body : GenerateContentResult) : StoreState :=
  (handleSendMessage (AppState.mk (some uid) (applySnapshot store.docs) input false)
    store (SendEnv.mk true (FetchOutcome.response 200 "" body) true true)).store

/-- A sequence of end-to-end successful sends. -/
def runSends (store : StoreState) :
    List (String × GenerateContentResult) → StoreState
  | [] => store
  | (t, b) :: rest => runSends (doSend store t b) rest

end SrcApp

namespace ProxyApp

/-- Component state of the `src/src/App.js` variant: like `SrcApp.AppState`
plus the error-indicator side channel (`error` / `setError`). -/
structure AppState where
  userId : Option String
  messages : List Message
  input : String
  isLoading : Bool
  error : Option String
deriving DecidableEq, Repr

/-- Result of one invocation of the proxy variant of `handleSendMessage`. -/
structure SendResult where
  app : AppState
  store : StoreState
  events : List Event
  outcome : SendOutcome
deriving DecidableEq, Repr

/-- Response extraction, `src/src/App.js` lines 445-448: optional chaining
`result.candidates?.[0]?.content?.parts?.[0]?.text` followed by a JS
truthiness test, so a present but *empty* text also keeps the fallback. -/
def extractBotResponseText (result : GenerateContentResult) : String :=
  match result.candidates with
  | some (c :: _) =>
    match c.content with
    | some content =>
      match content.parts with
      | some (p :: _) => if p.text = "" then fallbackText else p.text
      | _ => fallbackText
    | none => fallbackText
  | _ => fallbackText

/-- The message of the error thrown on a non-ok proxy response, line 409:
the fixed prefix, the numeric status, and the raw body text. -/
def statusErrorText (status : Nat) (bodyText : String) : String :=
  "API Error: " ++ Nat.repr status ++ " - " ++ bodyText

/-- `callGeminiAPI`, `src/src/App.js` lines 401-412: one fetch of the proxy
endpoint; a rejected fetch propagates, a non-ok status throws with the
status and body text, an ok status yields the parsed JSON. -/
def callGeminiAPI : FetchOutcome → Except String GenerateContentResult
  | FetchOutcome.networkFailure => Except.error "Failed to fetch"
  | FetchOutcome.response status bodyText body =>
    if responseOk status then Except.ok body
    else Except.error (statusErrorText status bodyText)

/-- The completion operation of the proxy variant: `handleSendMessage`
calls `callGeminiAPI` once (line 443); there is no retry loop, so each
invocation consults the endpoint oracle exactly once.  The second
component is the number of endpoint invocations made. -/
def complete (endpoint : Nat → FetchOutcome) :
    Except String GenerateContentResult × Nat :=
  (callGeminiAPI (endpoint 0), 1)

/-- Transcript assembly, `src/src/App.js` lines 436-441: map *all*
in-memory messages (this variant has no welcome message and no filter),
then push the trimmed text as the final user turn. -/
def chatHistory (messages : List Message) (textToSend : String) :
    List Turn :=
  messages.map toTurn ++ [Turn.mk Role.user textToSend]

/-- The catch block, `src/src/App.js` lines 457-466, followed by the
`finally` (467-469): set the error indicator, then append a bot message
whose text is the fixed prefix plus the error message, flagged with
isError set; when that append itself rejects the rejection escapes the
catch but `finally` still clears the busy flag. -/
def catchBranch (app1 : AppState) (store : StoreState)
    (events : List Event) (env : SendEnv) (emsg : String) : SendResult :=
  let app2 := AppState.mk app1.userId app1.messages app1.input false
    (some emsg)
  if env.errorAppendOk then
    let store2 :=
      (storeAppend store ("An error occurred: " ++ emsg) Sender.bot true).1
    SendResult.mk app2 store2
      (events ++ [Event.appendError ("An error occurred: " ++ emsg)])
      SendOutcome.completed
  else
    SendResult.mk app2 store events (SendOutcome.uncaughtFailure emsg)

/-- `handleSendMessage`, `src/src/App.js` lines 415-470.  `textToSend` is
`(prompt || input).trim()`; guard on line 419; busy flag, input clear and
error-indicator reset (429-431); then *inside* one try block: the
user-message append, transcript assembly, `callGeminiAPI`, extraction and
the bot append, with the catch/finally above. -/
def handleSendMessage (app : AppState) (store : StoreState) (env : SendEnv)
    (prompt : Option String) : SendResult :=
  let textToSend := jsTrim (match prompt with
    | some p => if p = "" then app.input else p
    | none => app.input)
  if textToSend = "" ∨ app.isLoading = true ∨ app.userId = none then
    SendResult.mk app store [] SendOutcome.noOp
  else
    let app1 := AppState.mk app.userId app.messages "" true none
    if env.userAppendOk = false then
      catchBranch app1 store [] env "StoreWriteError"
    else
      let store1 := (storeAppend store textToSend Sender.user false).1
      let history := chatHistory app.messages textToSend
      let events0 := [Event.appendUser textToSend,
        Event.fetchCall history]
      match env.fetch with
      | FetchOutcome.networkFailure =>
        catchBranch app1 store1 events0 env "Failed to fetch"
      | FetchOutcome.response status bodyText body =>
        if responseOk status then
          let botText := extractBotResponseText body
          if env.botAppendOk then
            let store2 := (storeAppend store1 botText Sender.bot false).1
            SendResult.mk
              (AppState.mk app1.userId app1.messages app1.input false none)
              store2 (events0 ++ [Event.appendBot botText])
              SendOutcome.completed
          else catchBranch app1 store1 events0 env "StoreWriteError"
        else catchBranch app1 store1 events0 env
          (statusErrorText status bodyText)

end ProxyApp

namespace ProxyAppA

/-- Component state of the first `src/src/App.js` variant (its
`handleSendMessage` is at lines 88-153): like the other proxy variant it
has the error-indicator state, but its send handler never touches it. -/
structure AppState where
  userId : Option String
  messages : List Message
  input : String
  isLoading : Bool
  error : Option String
deriving DecidableEq, Repr

/-- Result of one invocation of this variant of `handleSendMessage`. -/
structure SendResult where
  app : AppState
  store : StoreState
  events : List Event
  outcome : SendOutcome
deriving DecidableEq, Repr

/-- The catch block of `src/src/App.js` lines 142-149, followed by the
`finally` (150-152).  The catch never sets the error indicator; its
error-message append references the const `messagesColPath` declared
inside the try block (line 104), which is not in scope in the catch, so
evaluating it throws a ReferenceError before any write happens: nothing is
persisted, the rejection escapes the async function uncaught, and the
`finally` still clears the busy flag. -/
def catchBranch (app1 : AppState) (store : StoreState)
    (events : List Event) : SendResult :=
  SendResult.mk
    (AppState.mk app1.userId app1.messages app1.input false app1.error)
    store events
    (SendOutcome.uncaughtFailure "messagesColPath is not defined")

/-- `handleSendMessage`, `src/src/App.js` lines 88-153.  `textToSend` is
prompt-or-input, NOT trimmed for the persisted message (only the guard
trims, line 92); the user-message append is *inside* the try (line 105);
the transcript filters the welcome id and maps senders to roles exactly as
`src/App.js` does (lines 107-114); one fetch of the proxy endpoint throws
on non-ok status; presence-based extraction identical to `src/App.js`
(lines 126-133); every catch entry ends in the uncaught ReferenceError of
`catchBranch` above. -/
def handleSendMessage (app : AppState) (store : StoreState) (env : SendEnv)
    (prompt : Option String) : SendResult :=
  let textToSend := match prompt with
    | some p => if p = "" then app.input else p
    | none => app.input
  if jsTrim textToSend = "" ∨ app.isLoading = true ∨ app.userId = none then
    SendResult.mk app store [] SendOutcome.noOp
  else
    let app1 := AppState.mk app.userId app.messages "" true app.error
    if env.userAppendOk = false then
      catchBranch app1 store []
    else
      let store1 := (storeAppend store textToSend Sender.user false).1
      let history := SrcApp.chatHistory app.messages textToSend
      let events0 := [Event.appendUser textToSend,
        Event.fetchCall history]
      match env.fetch with
      | FetchOutcome.networkFailure => catchBranch app1 store1 events0
      | FetchOutcome.response status _ body =>
        if responseOk status then
          let botText := SrcApp.extractBotResponseText body
          if env.botAppendOk then
            let store2 := (storeAppend store1 botText Sender.bot false).1
            SendResult.mk
              (AppState.mk app1.userId app1.messages app1.input false
                app1.error)
              store2 (events0 ++ [Event.appendBot botText])
              SendOutcome.completed
          else catchBranch app1 store1 events0
        else catchBranch app1 store1 events0

end ProxyAppA

/-- `true` when the list alternates `user, bot, user, bot, ...` as complete
pairs (so in particular it has even length and starts with a user
message). -/
def userBotPairs : List Message → Bool
  | [] => true
  | [_] => false
  | u :: b :: rest =>
    decide (u.sender = Sender.user) && decide (b.sender = Sender.bot)
      && userBotPairs rest

/-- A well-formed success payload whose reply text is `"The success text"`. -/
def goodBody : GenerateContentResult :=
  GenerateContentResult.mk
    (some [Candidate.mk (some (Content.mk (some [TextPart.mk "The success text"])))])

/-- A 2xx payload whose first candidate has a first text part that is the
empty string. -/
def emptyTextBody : GenerateContentResult :=
  GenerateContentResult.mk
    (some [Candidate.mk (some (Content.mk (some [TextPart.mk ""])))])

/-- Endpoint oracle of the spec scenario for the retry policy: a 500 status
on the first two invocations, then a success. -/
def endpoint500TwiceThenOk : Nat → FetchOutcome := fun n =>
  if n < 2 then FetchOutcome.response 500 "err" (GenerateContentResult.mk none)
  else FetchOutcome.response 200 "" goodBody

/-! ### Helper lemmas -/

theorem storeDocId_ne_welcome (n : Nat) : storeDocId n ≠ "welcome-1" := by
  intro h
  have hd : ("doc-" ++ Nat.repr n).data = "welcome-1".data :=
    congrArg String.data h
  rw [String.data_append] at hd
  simp at hd

theorem userBotPairs_append_pair : ∀ (l : List Message) (u b : Message),
    u.sender = Sender.user → b.sender = Sender.bot → userBotPairs l = true →
    userBotPairs (l ++ [u, b]) = true
  | [], u, b, hu, hb, _ => by simp [userBotPairs, hu, hb]
  | [_], u, b, hu, hb, hl => by simp [userBotPairs] at hl
  | x :: y :: rest, u, b, hu, hb, hl => by
    rw [userBotPairs] at hl
    simp only [Bool.and_eq_true, decide_eq_true_eq] at hl
    have ih := userBotPairs_append_pair rest u b hu hb hl.2
    simp only [List.cons_append, userBotPairs, Bool.and_eq_true,
      decide_eq_true_eq]
    exact ⟨⟨hl.1.1, hl.1.2⟩, ih⟩

namespace SrcApp

theorem handleSendMessage_busy (app : AppState) (store : StoreState)
    (env : SendEnv) (h : app.isLoading = true) :
    handleSendMessage app store env =
      SendResult.mk app store [] SendOutcome.noOp := by
  rw [handleSendMessage, if_pos (Or.inr (Or.inl h))]

theorem handleSendMessage_userAppendFail (app : AppState)
    (store : StoreState) (env : SendEnv)
    (h1 : jsTrim app.input ≠ "") (h2 : app.isLoading = false)
    (h3 : app.userId ≠ none) (hf : env.userAppendOk = false) :
    handleSendMessage app store env =
      SendResult.mk (inFlight app) store []
        (SendOutcome.uncaughtFailure "StoreWriteError") := by
  rw [handleSendMessage, if_neg (by simp [h1, h2, h3])]
  simp [hf, inFlight]

theorem handleSendMessage_success (app : AppState) (store : StoreState)
    (env : SendEnv) (status : Nat) (bt : String)
    (body : GenerateContentResult)
    (h1 : jsTrim app.input ≠ "") (h2 : app.isLoading = false)
    (h3 : app.userId ≠ none) (hu : env.userAppendOk = true)
    (hf : env.fetch = FetchOutcome.response status bt body)
    (hok : responseOk status = true) (hb : env.botAppendOk = true) :
    handleSendMessage app store env =
      SendResult.mk (AppState.mk app.userId app.messages "" false)
        (StoreState.mk
          (store.docs ++
            [Message.mk (storeDocId store.nextId) app.input Sender.user
              store.nextTs false,
             Message.mk (storeDocId (store.nextId + 1))
              (extractBotResponseText body) Sender.bot (store.nextTs + 1)
              false])
          (store.nextId + 1 + 1) (store.nextTs + 1 + 1))
        [Event.appendUser app.input,
         Event.fetchCall (chatHistory app.messages app.input),
         Event.appendBot (extractBotResponseText body)]
        SendOutcome.completed := by
  rw [handleSendMessage, if_neg (by simp [h1, h2, h3])]
  simp [hu, hf, hok, hb, storeAppend]

theorem handleSendMessage_errorPath (app : AppState) (store : StoreState)
    (env : SendEnv)
    (h1 : jsTrim app.input ≠ "") (h2 : app.isLoading = false)
    (h3 : app.userId ≠ none) (hu : env.userAppendOk = true)
    (hfail : fetchFails env.fetch = true ∨ env.botAppendOk = false)
    (he : env.errorAppendOk = true) :
    handleSendMessage app store env =
      SendResult.mk (AppState.mk app.userId app.messages "" false)
        (StoreState.mk
          (store.docs ++
            [Message.mk (storeDocId store.nextId) app.input Sender.user
              store.nextTs false,
             Message.mk (storeDocId (store.nextId + 1)) errorReplyText
              Sender.bot (store.nextTs + 1) false])
          (store.nextId + 1 + 1) (store.nextTs + 1 + 1))
        [Event.appendUser app.input,
         Event.fetchCall (chatHistory app.messages app.input),
         Event.appendError errorReplyText]
        SendOutcome.completed := by
  rw [handleSendMessage, if_neg (by simp [h1, h2, h3])]
  cases hfetch : env.fetch with
  | networkFailure => simp [hu, catchBranch, he, storeAppend]
  | response s bt b =>
    rw [hfetch] at hfail
    cases hok : responseOk s with
    | true =>
      have hbf : env.botAppendOk = false := by
        rcases hfail with hx | hx
        · rw [fetchFails, hok] at hx; simp at hx
        · exact hx
      simp [hu, hok, hbf, catchBranch, he, storeAppend]
    | false => simp [hu, hok, catchBranch, he, storeAppend]

end SrcApp

namespace SrcApp

theorem doSend_eq (store : StoreState) (input : String)
    (body : GenerateContentResult) (h : jsTrim input ≠ "") :
    doSend store input body = StoreState.mk
      (store.docs ++
        [Message.mk (storeDocId store.nextId) input Sender.user
          store.nextTs false,
         Message.mk (storeDocId (store.nextId + 1))
          (extractBotResponseText body) Sender.bot (store.nextTs + 1)
          false])
      (store.nextId + 1 + 1) (store.nextTs + 1 + 1) := by
  rw [doSend, handleSendMessage_success
    (AppState.mk (some uid) (applySnapshot store.docs) input false)
    store _ 200 "" body h rfl (by simp) rfl rfl (by decide) rfl]

theorem doSend_skip (store : StoreState) (input : String)
    (body : GenerateContentResult) (h : jsTrim input = "") :
    doSend store input body = store := by
  rw [doSend, handleSendMessage, if_pos (Or.inl h)]

theorem runSends_inv : ∀ (sends : List (String × GenerateContentResult))
    (store : StoreState),
    (∀ p ∈ sends, jsTrim p.1 ≠ "") →
    userBotPairs store.docs = true →
    store.docs.Pairwise (fun a b => a.timestamp < b.timestamp) →
    (∀ m ∈ store.docs, m.timestamp < store.nextTs) →
    (runSends store sends).docs.length
        = store.docs.length + 2 * sends.length ∧
    userBotPairs (runSends store sends).docs = true ∧
    (runSends store sends).docs.Pairwise
      (fun a b => a.timestamp < b.timestamp) ∧
    (∀ m ∈ (runSends store sends).docs,
      m.timestamp < (runSends store sends).nextTs)
  | [], store, _, hpairs, hsorted, hts => by
    exact ⟨by simp [runSends], by simpa [runSends] using hpairs,
      by simpa [runSends] using hsorted,
      by simpa [runSends] using hts⟩
  | (t, b) :: rest, store, h, hpairs, hsorted, hts => by
    have htrim : jsTrim t ≠ "" := h (t, b) (List.mem_cons_self _ _)
    have hrest : ∀ p ∈ rest, jsTrim p.1 ≠ "" :=
      fun p hp => h p (List.mem_cons_of_mem _ hp)
    rw [runSends]
    have hd := doSend_eq store t b htrim
    have hpairs2 : userBotPairs (doSend store t b).docs = true := by
      rw [hd]
      exact userBotPairs_append_pair store.docs _ _ rfl rfl hpairs
    have hsorted2 : (doSend store t b).docs.Pairwise
        (fun a b => a.timestamp < b.timestamp) := by
      rw [hd]
      rw [List.pairwise_append]
      refine ⟨hsorted, ?_, ?_⟩
      · simp
      · intro a ha x hx
        have hlt : a.timestamp < store.nextTs := hts a ha
        simp only [List.mem_cons, List.not_mem_nil, or_false] at hx
        rcases hx with hx | hx
        · rw [hx]; exact hlt
        · rw [hx]; exact Nat.lt_succ_of_lt hlt
    have hts2 : ∀ m ∈ (doSend store t b).docs,
        m.timestamp < (doSend store t b).nextTs := by
      rw [hd]
      intro m hm
      rcases List.mem_append.mp hm with hm | hm
      · exact Nat.lt_of_lt_of_le (hts m hm)
          (Nat.le_add_right store.nextTs 2)
      · simp only [List.mem_cons, List.not_mem_nil, or_false] at hm
        rcases hm with hm | hm
        · rw [hm]; dsimp only; omega
        · rw [hm]; dsimp only; omega
    obtain ⟨ihlen, ihpairs, ihsorted, ihts⟩ :=
      runSends_inv rest (doSend store t b) hrest hpairs2 hsorted2 hts2
    refine ⟨?_, ihpairs, ihsorted, ihts⟩
    rw [ihlen, hd]
    simp
    omega

theorem doSend_no_welcome (store : StoreState) (input : String)
    (body : GenerateContentResult)
    (h : ∀ m ∈ store.docs, m.id ≠ "welcome-1") :
    ∀ m ∈ (doSend store input body).docs, m.id ≠ "welcome-1" := by
  by_cases htrim : jsTrim input = ""
  · rw [doSend_skip store input body htrim]; exact h
  · rw [doSend_eq store input body htrim]
    intro m hm
    rcases List.mem_append.mp hm with hm | hm
    · exact h m hm
    · simp only [List.mem_cons, List.not_mem_nil, or_false] at hm
      rcases hm with hm | hm
      · rw [hm]; exact storeDocId_ne_welcome _
      · rw [hm]; exact storeDocId_ne_welcome _

theorem runSends_no_welcome :
    ∀ (sends : List (String × GenerateContentResult)) (store : StoreState),
    (∀ m ∈ store.docs, m.id ≠ "welcome-1") →
    ∀ m ∈ (runSends store sends).docs, m.id ≠ "welcome-1"
  | [], store, h => by simpa [runSends] using h
  | (t, b) :: rest, store, h => by
    rw [runSends]
    exact runSends_no_welcome rest (doSend store t b)
      (doSend_no_welcome store t b h)

end SrcApp

namespace SrcApp

theorem catchBranch_events (app1 : AppState) (store : StoreState)
    (evts : List Event) (env : SendEnv) :
    (catchBranch app1 store evts env).events = evts ∨
    (catchBranch app1 store evts env).events
      = evts ++ [Event.appendError errorReplyText] := by
  rw [catchBranch]
  split
  · right; rfl
  · left; rfl

theorem handleSendMessage_events_cases (app : AppState) (store : StoreState)
    (env : SendEnv) :
    (handleSendMessage app store env).events = [] ∨
    ∃ tail, (handleSendMessage app store env).events =
        Event.appendUser app.input ::
          Event.fetchCall (chatHistory app.messages app.input) :: tail ∧
      (tail = [] ∨ (∃ x, tail = [Event.appendBot x]) ∨
        ∃ y, tail = [Event.appendError y]) := by
  rw [handleSendMessage]
  split
  · left; rfl
  · split
    · left; rfl
    · split
      · rcases catchBranch_events (AppState.mk app.userId app.messages "" true)
          ((storeAppend store app.input Sender.user false).1)
          [Event.appendUser app.input,
            Event.fetchCall (chatHistory app.messages app.input)] env
          with hc | hc
        · right; exact ⟨[], by rw [hc], Or.inl rfl⟩
        · right; exact ⟨[Event.appendError errorReplyText], by simp [hc],
            Or.inr (Or.inr ⟨_, rfl⟩)⟩
      · split
        · split
          · right
            exact ⟨[Event.appendBot _], rfl, Or.inr (Or.inl ⟨_, rfl⟩)⟩
          · rcases catchBranch_events (AppState.mk app.userId app.messages "" true)
              ((storeAppend store app.input Sender.user false).1)
              [Event.appendUser app.input,
                Event.fetchCall (chatHistory app.messages app.input)] env
              with hc | hc
            · right; exact ⟨[], by rw [hc], Or.inl rfl⟩
            · right; exact ⟨[Event.appendError errorReplyText], by simp [hc],
                Or.inr (Or.inr ⟨_, rfl⟩)⟩
        · rcases catchBranch_events (AppState.mk app.userId app.messages "" true)
            ((storeAppend store app.input Sender.user false).1)
            [Event.appendUser app.input,
              Event.fetchCall (chatHistory app.messages app.input)] env
            with hc | hc
          · right; exact ⟨[], by rw [hc], Or.inl rfl⟩
          · right; exact ⟨[Event.appendError errorReplyText], by simp [hc],
              Or.inr (Or.inr ⟨_, rfl⟩)⟩

end SrcApp

namespace SrcApp

theorem chatHistory_no_welcome (messages : List Message) (input : String)
    (h : ∀ m ∈ messages, m.id ≠ "welcome-1") :
    chatHistory messages input
      = messages.map toTurn ++ [Turn.mk Role.user input] := by
  rw [chatHistory]
  have hf : messages.filter (fun msg => msg.id != "welcome-1") = messages :=
    List.filter_eq_self.mpr (fun m hm => by simp [h m hm])
  rw [hf]

theorem mem_chatHistory_of_bot (msgs : List Message) (input : String)
    (m : Message) (hm : m ∈ msgs) (hid : m.id ≠ "welcome-1")
    (hs : m.sender = Sender.bot) :
    Turn.mk Role.model m.text ∈ chatHistory msgs input := by
  rw [chatHistory]
  apply List.mem_append_left
  have ht : toTurn m = Turn.mk Role.model m.text := by
    simp [toTurn, hs, roleOf]
  rw [← ht]
  exact List.mem_map_of_mem toTurn
    (List.mem_filter.mpr ⟨hm, by simp [hid]⟩)

end SrcApp

namespace ProxyAppA

theorem proxyASend_userAppendFail (app : AppState)
    (store : StoreState) (env : SendEnv)
    (h1 : jsTrim app.input ≠ "") (h2 : app.isLoading = false)
    (h3 : app.userId ≠ none) (hf : env.userAppendOk = false) :
    handleSendMessage app store env none =
      SendResult.mk
        (AppState.mk app.userId app.messages "" false app.error)
        store [] (SendOutcome.uncaughtFailure
          "messagesColPath is not defined") := by
  simp [handleSendMessage, h1, h2, h3, hf, catchBranch]

end ProxyAppA

namespace ProxyApp

theorem proxySend_errorPath (app : AppState) (store : StoreState)
    (env : SendEnv)
    (h1 : jsTrim app.input ≠ "") (h2 : app.isLoading = false)
    (h3 : app.userId ≠ none) (hu : env.userAppendOk = true)
    (hfail : fetchFails env.fetch = true ∨ env.botAppendOk = false)
    (he : env.errorAppendOk = true) :
    ∃ s, handleSendMessage app store env none =
      SendResult.mk
        (AppState.mk app.userId app.messages "" false (some s))
        (StoreState.mk
          (store.docs ++
            [Message.mk (storeDocId store.nextId) (jsTrim app.input)
              Sender.user store.nextTs false,
             Message.mk (storeDocId (store.nextId + 1))
              ("An error occurred: " ++ s) Sender.bot (store.nextTs + 1)
              true])
          (store.nextId + 1 + 1) (store.nextTs + 1 + 1))
        [Event.appendUser (jsTrim app.input),
         Event.fetchCall (chatHistory app.messages (jsTrim app.input)),
         Event.appendError ("An error occurred: " ++ s)]
        SendOutcome.completed := by
  cases hfetch : env.fetch with
  | networkFailure =>
    refine ⟨"Failed to fetch", ?_⟩
    simp [handleSendMessage, h1, h2, h3, hu, hfetch, catchBranch, he,
      storeAppend]
  | response stc btc bc =>
    rw [hfetch] at hfail
    cases hok : responseOk stc with
    | true =>
      have hbf : env.botAppendOk = false := by
        rcases hfail with hx | hx
        · rw [fetchFails, hok] at hx; simp at hx
        · exact hx
      refine ⟨"StoreWriteError", ?_⟩
      simp [handleSendMessage, h1, h2, h3, hu, hfetch, hok, hbf,
        catchBranch, he, storeAppend]
    | false =>
      refine ⟨statusErrorText stc btc, ?_⟩
      simp [handleSendMessage, h1, h2, h3, hu, hfetch, hok, catchBranch,
        he, storeAppend]

end ProxyApp

/-! ### Claim C1 -/

/-- Claim C1, counterexample: with an endpoint that answers 500 twice and
then succeeds, the completion operation of both variants fails on the very
first attempt with the status error and consults the endpoint exactly once;
it is not retried and does not return the success text, contradicting the
claimed 3-attempt backoff. -/
theorem completion_not_retried_on_500 :
    (SrcApp.complete endpoint500TwiceThenOk).2 = 1 ∧
    (SrcApp.complete endpoint500TwiceThenOk).1
      = Except.error (SrcApp.statusErrorText 500) ∧
    (ProxyApp.complete endpoint500TwiceThenOk).2 = 1 ∧
    (ProxyApp.complete endpoint500TwiceThenOk).1
      = Except.error (ProxyApp.statusErrorText 500 "err") :=
  ⟨rfl, rfl, rfl, rfl⟩

/-- Claim C1, amended: each invocation of the completion operation performs
exactly one endpoint call — the source has no retry loop and no backoff
delay — and any non-2xx response (5xx included) or network failure makes it
fail immediately with the corresponding error. -/
theorem completion_single_attempt (endpoint endpoint2 : Nat → FetchOutcome)
    (s : Nat) (bt : String) (b : GenerateContentResult)
    (h : endpoint 0 = FetchOutcome.response s bt b)
    (h5 : responseOk s = false)
    (hn : endpoint2 0 = FetchOutcome.networkFailure) :
    (SrcApp.complete endpoint).2 = 1 ∧
    (SrcApp.complete endpoint).1
      = Except.error (SrcApp.statusErrorText s) ∧
    (ProxyApp.complete endpoint).2 = 1 ∧
    (ProxyApp.complete endpoint).1
      = Except.error (ProxyApp.statusErrorText s bt) ∧
    (SrcApp.complete endpoint2).2 = 1 ∧
    (SrcApp.complete endpoint2).1 = Except.error "Failed to fetch" ∧
    (ProxyApp.complete endpoint2).2 = 1 ∧
    (ProxyApp.complete endpoint2).1 = Except.error "Failed to fetch" := by
  refine ⟨rfl, ?_, rfl, ?_, rfl, ?_, rfl, ?_⟩
  · simp [SrcApp.complete, SrcApp.fetchCompletion, h, h5]
  · simp [ProxyApp.complete, ProxyApp.callGeminiAPI, h, h5]
  · simp [SrcApp.complete, SrcApp.fetchCompletion, hn]
  · simp [ProxyApp.complete, ProxyApp.callGeminiAPI, hn]

/-- Claim C1, witness for the amended theorem at the 500-twice endpoint and
an always-failing network. -/
theorem completion_single_attempt_witness :
    (SrcApp.complete endpoint500TwiceThenOk).2 = 1 ∧
    (SrcApp.complete endpoint500TwiceThenOk).1
      = Except.error (SrcApp.statusErrorText 500) ∧
    (ProxyApp.complete endpoint500TwiceThenOk).2 = 1 ∧
    (ProxyApp.complete endpoint500TwiceThenOk).1
      = Except.error (ProxyApp.statusErrorText 500 "err") ∧
    (SrcApp.complete fun _ => FetchOutcome.networkFailure).2 = 1 ∧
    (SrcApp.complete fun _ => FetchOutcome.networkFailure).1
      = Except.error "Failed to fetch" ∧
    (ProxyApp.complete fun _ => FetchOutcome.networkFailure).2 = 1 ∧
    (ProxyApp.complete fun _ => FetchOutcome.networkFailure).1
      = Except.error "Failed to fetch" :=
  completion_single_attempt endpoint500TwiceThenOk
    (fun _ => FetchOutcome.networkFailure) 500 "err"
    (GenerateContentResult.mk none) rfl (by decide) rfl

/-! ### Claim C2 -/

/-- Claim C2, counterexample: in src/App.js the initial user-message append
is awaited outside the try/catch (line 98), so when it fails the rejection
escapes handleSendMessage as an uncaught failure — it is not caught at the
orchestrator boundary — and the busy flag is left set. -/
theorem initial_append_failure_uncaught :
    (SrcApp.handleSendMessage
        (SrcApp.AppState.mk (some "u1") [] "hi" false) emptyStore
        (SendEnv.mk false FetchOutcome.networkFailure true true)).outcome
      = SendOutcome.uncaughtFailure "StoreWriteError" ∧
    (SrcApp.handleSendMessage
        (SrcApp.AppState.mk (some "u1") [] "hi" false) emptyStore
        (SendEnv.mk false FetchOutcome.networkFailure true true)).app.isLoading
      = true := by
  decide

/-- Claim C2, amended: when the initial user-message append fails, no
Message of any kind is persisted to the store and the error-indicator side
channel is never set, but the failure is NOT caught at the orchestrator
boundary: in src/App.js the append is awaited outside the try/catch
(line 98), so the rejection propagates uncaught out of handleSendMessage
with the busy flag left set; in the cited src/src/App.js variant
(lines 88-153) the append failure is caught (line 105 is inside the try),
but the catch references the try-scoped const messagesColPath, so it
throws an uncaught ReferenceError before any write — nothing is persisted,
the error indicator stays untouched, and only the busy flag is cleared by
the finally. -/
theorem initial_append_failure_behaviour
    (app : SrcApp.AppState) (store : StoreState) (env : SendEnv)
    (papp : ProxyAppA.AppState) (pstore : StoreState) (penv : SendEnv)
    (h1 : jsTrim app.input ≠ "") (h2 : app.isLoading = false)
    (h3 : app.userId ≠ none) (hf : env.userAppendOk = false)
    (p1 : jsTrim papp.input ≠ "") (p2 : papp.isLoading = false)
    (p3 : papp.userId ≠ none) (pf : penv.userAppendOk = false) :
    (SrcApp.handleSendMessage app store env).outcome
        = SendOutcome.uncaughtFailure "StoreWriteError" ∧
    (SrcApp.handleSendMessage app store env).store = store ∧
    (SrcApp.handleSendMessage app store env).events = [] ∧
    (SrcApp.handleSendMessage app store env).app.isLoading = true ∧
    (ProxyAppA.handleSendMessage papp pstore penv none).outcome
        = SendOutcome.uncaughtFailure "messagesColPath is not defined" ∧
    (ProxyAppA.handleSendMessage papp pstore penv none).store = pstore ∧
    (ProxyAppA.handleSendMessage papp pstore penv none).events = [] ∧
    (ProxyAppA.handleSendMessage papp pstore penv none).app.error
        = papp.error ∧
    (ProxyAppA.handleSendMessage papp pstore penv none).app.isLoading
        = false := by
  rw [SrcApp.handleSendMessage_userAppendFail app store env h1 h2 h3 hf,
    ProxyAppA.proxyASend_userAppendFail papp pstore penv p1 p2 p3 pf]
  simp [SrcApp.inFlight]

/-- Claim C2, witness for the amended theorem at concrete states. -/
theorem initial_append_failure_behaviour_witness :
    (SrcApp.handleSendMessage
        (SrcApp.AppState.mk (some "u1") [] "hi" false) emptyStore
        (SendEnv.mk false FetchOutcome.networkFailure true true)).outcome
        = SendOutcome.uncaughtFailure "StoreWriteError" ∧
    (SrcApp.handleSendMessage
        (SrcApp.AppState.mk (some "u1") [] "hi" false) emptyStore
        (SendEnv.mk false FetchOutcome.networkFailure true true)).store
        = emptyStore ∧
    (SrcApp.handleSendMessage
        (SrcApp.AppState.mk (some "u1") [] "hi" false) emptyStore
        (SendEnv.mk false FetchOutcome.networkFailure true true)).events
        = [] ∧
    (SrcApp.handleSendMessage
        (SrcApp.AppState.mk (some "u1") [] "hi" false) emptyStore
        (SendEnv.mk false FetchOutcome.networkFailure true true)).app.isLoading
        = true ∧
    (ProxyAppA.handleSendMessage
        (ProxyAppA.AppState.mk (some "u1") [] "hey" false none) emptyStore
        (SendEnv.mk false FetchOutcome.networkFailure true true) none).outcome
        = SendOutcome.uncaughtFailure "messagesColPath is not defined" ∧
    (ProxyAppA.handleSendMessage
        (ProxyAppA.AppState.mk (some "u1") [] "hey" false none) emptyStore
        (SendEnv.mk false FetchOutcome.networkFailure true true) none).store
        = emptyStore ∧
    (ProxyAppA.handleSendMessage
        (ProxyAppA.AppState.mk (some "u1") [] "hey" false none) emptyStore
        (SendEnv.mk false FetchOutcome.networkFailure true true) none).events
        = [] ∧
    (ProxyAppA.handleSendMessage
        (ProxyAppA.AppState.mk (some "u1") [] "hey" false none) emptyStore
        (SendEnv.mk false FetchOutcome.networkFailure true true) none).app.error
        = none ∧
    (ProxyAppA.handleSendMessage
        (ProxyAppA.AppState.mk (some "u1") [] "hey" false none) emptyStore
        (SendEnv.mk false FetchOutcome.networkFailure true true) none).app.isLoading
        = false :=
  initial_append_failure_behaviour
    (SrcApp.AppState.mk (some "u1") [] "hi" false) emptyStore
    (SendEnv.mk false FetchOutcome.networkFailure true true)
    (ProxyAppA.AppState.mk (some "u1") [] "hey" false none) emptyStore
    (SendEnv.mk false FetchOutcome.networkFailure true true)
    (by decide) rfl (by decide) rfl (by decide) rfl (by decide) rfl

/-! ### Claim C3 -/

/-- Claim C3, counterexample: a src/App.js send whose completion call fails
persists the bot error reply WITHOUT the isError flag — the persisted
documents of such a send carry isError false, contradicting the claim that
the flag is set. -/
theorem error_reply_lacks_flag :
    ((SrcApp.handleSendMessage
        (SrcApp.AppState.mk (some "u1") [] "hi" false) emptyStore
        (SendEnv.mk true FetchOutcome.networkFailure true true)).store.docs.map
        Message.isError) = [false, false] ∧
    ((SrcApp.handleSendMessage
        (SrcApp.AppState.mk (some "u1") [] "hi" false) emptyStore
        (SendEnv.mk true FetchOutcome.networkFailure true true)).store.docs.map
        Message.sender) = [Sender.user, Sender.bot] ∧
    ((SrcApp.handleSendMessage
        (SrcApp.AppState.mk (some "u1") [] "hi" false) emptyStore
        (SendEnv.mk true FetchOutcome.networkFailure true true)).store.docs.map
        Message.text) = ["hi", SrcApp.errorReplyText] := by
  decide

/-- Claim C3, amended: when the completion call fails after the user
Message was stored (failed fetch, non-2xx status, or failed bot append) and
the error append itself succeeds, the orchestrator persists a bot-authored
Message with a human-readable error string; only the src/src/App.js variant
flags it with isError true — src/App.js persists it without an isError
flag. -/
theorem error_reply_persisted
    (app : SrcApp.AppState) (store : StoreState) (env : SendEnv)
    (papp : ProxyApp.AppState) (pstore : StoreState) (penv : SendEnv)
    (h1 : jsTrim app.input ≠ "") (h2 : app.isLoading = false)
    (h3 : app.userId ≠ none) (hu : env.userAppendOk = true)
    (hfail : fetchFails env.fetch = true ∨ env.botAppendOk = false)
    (he : env.errorAppendOk = true)
    (p1 : jsTrim papp.input ≠ "") (p2 : papp.isLoading = false)
    (p3 : papp.userId ≠ none) (pu : penv.userAppendOk = true)
    (pfail : fetchFails penv.fetch = true ∨ penv.botAppendOk = false)
    (pe : penv.errorAppendOk = true) :
    (∃ u e, (SrcApp.handleSendMessage app store env).store.docs
        = store.docs ++ [u, e] ∧ u.sender = Sender.user ∧
        e.sender = Sender.bot ∧ e.text = SrcApp.errorReplyText ∧
        e.isError = false) ∧
    (∃ u2 e2 s, (ProxyApp.handleSendMessage papp pstore penv none).store.docs
        = pstore.docs ++ [u2, e2] ∧ u2.sender = Sender.user ∧
        e2.sender = Sender.bot ∧ e2.text = "An error occurred: " ++ s ∧
        e2.isError = true) := by
  constructor
  · rw [SrcApp.handleSendMessage_errorPath app store env h1 h2 h3 hu hfail
      he]
    exact ⟨_, _, rfl, rfl, rfl, rfl, rfl⟩
  · obtain ⟨s, hs⟩ := ProxyApp.proxySend_errorPath papp pstore penv
      p1 p2 p3 pu pfail pe
    rw [hs]
    exact ⟨_, _, s, rfl, rfl, rfl, rfl, rfl⟩

/-- Claim C3, witness for the amended theorem at concrete states. -/
theorem error_reply_persisted_witness :
    (∃ u e, (SrcApp.handleSendMessage
        (SrcApp.AppState.mk (some "u1") [] "hi" false) emptyStore
        (SendEnv.mk true FetchOutcome.networkFailure true true)).store.docs
        = emptyStore.docs ++ [u, e] ∧ u.sender = Sender.user ∧
        e.sender = Sender.bot ∧ e.text = SrcApp.errorReplyText ∧
        e.isError = false) ∧
    (∃ u2 e2 s, (ProxyApp.handleSendMessage
        (ProxyApp.AppState.mk (some "u1") [] "hey" false none) emptyStore
        (SendEnv.mk true (FetchOutcome.response 404 "nope"
          (GenerateContentResult.mk none)) true true) none).store.docs
        = emptyStore.docs ++ [u2, e2] ∧ u2.sender = Sender.user ∧
        e2.sender = Sender.bot ∧ e2.text = "An error occurred: " ++ s ∧
        e2.isError = true) :=
  error_reply_persisted
    (SrcApp.AppState.mk (some "u1") [] "hi" false) emptyStore
    (SendEnv.mk true FetchOutcome.networkFailure true true)
    (ProxyApp.AppState.mk (some "u1") [] "hey" false none) emptyStore
    (SendEnv.mk true (FetchOutcome.response 404 "nope"
      (GenerateContentResult.mk none)) true true)
    (by decide) rfl (by decide) rfl (Or.inl rfl) rfl
    (by decide) rfl (by decide) rfl (Or.inl (by decide)) rfl

/-! ### Claim C4 -/

/-- Claim C4: in every send invocation, whenever the completion call
happens, it is immediately preceded by the successful append of the user
Message (the event trace starts with the user append followed by the fetch),
and the transcript it is given equals the assembly of the pre-send in-memory
message list plus the new input text — an expression independent of the
store state, so the transcript is never re-read from the store. -/
theorem user_append_precedes_completion (app : SrcApp.AppState)
    (store : StoreState) (env : SendEnv) (t : List Turn)
    (h : Event.fetchCall t
      ∈ (SrcApp.handleSendMessage app store env).events) :
    t = SrcApp.chatHistory app.messages app.input ∧
    ∃ rest, (SrcApp.handleSendMessage app store env).events =
      Event.appendUser app.input :: Event.fetchCall t :: rest := by
  rcases SrcApp.handleSendMessage_events_cases app store env with
    hc | ⟨tail, hev, htail⟩
  · rw [hc] at h
    exact absurd h (List.not_mem_nil _)
  · rw [hev] at h
    simp only [List.mem_cons] at h
    rcases h with h | h | h
    · exact Event.noConfusion h
    · injection h with ht
      subst ht
      exact ⟨rfl, tail, hev⟩
    · exfalso
      rcases htail with h0 | ⟨x, hx⟩ | ⟨y, hy⟩
      · rw [h0] at h
        exact absurd h (List.not_mem_nil _)
      · rw [hx] at h
        simp at h
      · rw [hy] at h
        simp at h

/-- Claim C4, witness at a concrete successful send. -/
theorem user_append_precedes_completion_witness :
    [Turn.mk Role.user "hi"]
        = SrcApp.chatHistory
            (SrcApp.AppState.mk (some "u1") [] "hi" false).messages
            (SrcApp.AppState.mk (some "u1") [] "hi" false).input ∧
    ∃ rest, (SrcApp.handleSendMessage
        (SrcApp.AppState.mk (some "u1") [] "hi" false) emptyStore
        (SendEnv.mk true (FetchOutcome.response 200 "" goodBody) true
          true)).events =
      Event.appendUser (SrcApp.AppState.mk (some "u1") [] "hi" false).input
        :: Event.fetchCall [Turn.mk Role.user "hi"] :: rest :=
  user_append_precedes_completion
    (SrcApp.AppState.mk (some "u1") [] "hi" false) emptyStore
    (SendEnv.mk true (FetchOutcome.response 200 "" goodBody) true true)
    [Turn.mk Role.user "hi"] (by decide)

/-! ### Claim C5 -/

/-- Claim C5: while a send is in flight the busy flag is set and the input
cleared; invoking send in that state is a no-op for any store and
environment — the state is unchanged, nothing is appended, nothing is
queued — so a pair of back-to-back invocations yields exactly the two
messages of the first send: one user message and one bot-or-error
message. -/
theorem single_flight_send (app : SrcApp.AppState)
    (store store2 : StoreState) (env env2 : SendEnv)
    (h1 : jsTrim app.input ≠ "") (h2 : app.isLoading = false)
    (h3 : app.userId ≠ none) (h4 : env.userAppendOk = true)
    (h5 : env.botAppendOk = true) (h6 : env.errorAppendOk = true) :
    SrcApp.handleSendMessage (SrcApp.inFlight app) store2 env2
        = SrcApp.SendResult.mk (SrcApp.inFlight app) store2 []
            SendOutcome.noOp ∧
    ∃ u b, (SrcApp.handleSendMessage app store env).store.docs
        = store.docs ++ [u, b] ∧ u.sender = Sender.user ∧
        u.text = app.input ∧ b.sender = Sender.bot := by
  constructor
  · exact SrcApp.handleSendMessage_busy _ _ _ rfl
  · cases hfetch : env.fetch with
    | networkFailure =>
      rw [SrcApp.handleSendMessage_errorPath app store env h1 h2 h3 h4
        (Or.inl (by rw [hfetch]; rfl)) h6]
      exact ⟨_, _, rfl, rfl, rfl, rfl⟩
    | response s bt b =>
      cases hok : responseOk s with
      | true =>
        rw [SrcApp.handleSendMessage_success app store env s bt b h1 h2 h3
          h4 hfetch hok h5]
        exact ⟨_, _, rfl, rfl, rfl, rfl⟩
      | false =>
        rw [SrcApp.handleSendMessage_errorPath app store env h1 h2 h3 h4
          (Or.inl (by rw [hfetch, fetchFails, hok]; rfl)) h6]
        exact ⟨_, _, rfl, rfl, rfl, rfl⟩

/-- Claim C5, witness at a concrete send. -/
theorem single_flight_send_witness :
    SrcApp.handleSendMessage
        (SrcApp.inFlight (SrcApp.AppState.mk (some "u1") [] "hi" false))
        emptyStore (SendEnv.mk true FetchOutcome.networkFailure true true)
        = SrcApp.SendResult.mk
            (SrcApp.inFlight (SrcApp.AppState.mk (some "u1") [] "hi" false))
            emptyStore [] SendOutcome.noOp ∧
    ∃ u b, (SrcApp.handleSendMessage
        (SrcApp.AppState.mk (some "u1") [] "hi" false) emptyStore
        (SendEnv.mk true (FetchOutcome.response 200 "" goodBody) true
          true)).store.docs
        = emptyStore.docs ++ [u, b] ∧ u.sender = Sender.user ∧
        u.text = (SrcApp.AppState.mk (some "u1") [] "hi" false).input ∧
        b.sender = Sender.bot :=
  single_flight_send (SrcApp.AppState.mk (some "u1") [] "hi" false)
    emptyStore emptyStore
    (SendEnv.mk true (FetchOutcome.response 200 "" goodBody) true true)
    (SendEnv.mk true FetchOutcome.networkFailure true true)
    (by decide) rfl (by decide) rfl rfl rfl

/-! ### Claim C6 -/

/-- Claim C6: the conversation assembly is a pure function of the ordered
message list and the new input string — sender bot maps to role model,
sender user maps to role user, and on any welcome-free message list the
transcript is exactly the mapped list with the new input appended as the
final user turn; the concrete spec example holds. -/
theorem assembler_maps_and_appends (messages : List Message)
    (input : String) (h : ∀ m ∈ messages, m.id ≠ "welcome-1") :
    SrcApp.chatHistory messages input
        = messages.map toTurn ++ [Turn.mk Role.user input] ∧
    roleOf Sender.bot = Role.model ∧
    roleOf Sender.user = Role.user ∧
    SrcApp.chatHistory
        [Message.mk "m1" "hi" Sender.user 0 false,
         Message.mk "m2" "hello" Sender.bot 1 false] "how are you"
      = [Turn.mk Role.user "hi", Turn.mk Role.model "hello",
         Turn.mk Role.user "how are you"] :=
  ⟨SrcApp.chatHistory_no_welcome messages input h, rfl, rfl, by decide⟩

/-- Claim C6, witness at the spec example. -/
theorem assembler_maps_and_appends_witness :
    SrcApp.chatHistory
        [Message.mk "m1" "hi" Sender.user 0 false,
         Message.mk "m2" "hello" Sender.bot 1 false] "how are you"
        = [Message.mk "m1" "hi" Sender.user 0 false,
           Message.mk "m2" "hello" Sender.bot 1 false].map toTurn
          ++ [Turn.mk Role.user "how are you"] ∧
    roleOf Sender.bot = Role.model ∧
    roleOf Sender.user = Role.user ∧
    SrcApp.chatHistory
        [Message.mk "m1" "hi" Sender.user 0 false,
         Message.mk "m2" "hello" Sender.bot 1 false] "how are you"
      = [Turn.mk Role.user "hi", Turn.mk Role.model "hello",
         Turn.mk Role.user "how are you"] :=
  assembler_maps_and_appends
    [Message.mk "m1" "hi" Sender.user 0 false,
     Message.mk "m2" "hello" Sender.bot 1 false] "how are you" (by decide)

/-! ### Claim C7 -/

/-- Claim C7, counterexample: on a 2xx payload whose first candidate has a
first text part that is the empty string, the src/src/App.js variant
returns the fixed fallback string instead of that text part (src/App.js
returns the empty text), so the result is not always the first text part of
the payload. -/
theorem proxy_empty_text_falls_back :
    ProxyApp.extractBotResponseText emptyTextBody = fallbackText ∧
    SrcApp.extractBotResponseText emptyTextBody = "" ∧
    fallbackText ≠ "" := by
  decide

/-- Claim C7, amended: for every successful (2xx) completion response whose
first candidate has a present, nonempty first text part, both variants
return that text part; payloads with missing candidates, content, or parts
(or an empty candidate or part list) yield the fixed fallback string and do
not fail; in the src/src/App.js variant a present-but-empty first text part
also yields the fallback, while src/App.js returns the empty text
as-is. -/
theorem extraction_first_text_part (r : GenerateContentResult)
    (c : Candidate) (cs : List Candidate) (ct : Content) (p : TextPart)
    (ps : List TextPart)
    (hc : r.candidates = some (c :: cs)) (hct : c.content = some ct)
    (hp : ct.parts = some (p :: ps)) (hne : p.text ≠ "") :
    SrcApp.extractBotResponseText r = p.text ∧
    ProxyApp.extractBotResponseText r = p.text ∧
    SrcApp.extractBotResponseText (GenerateContentResult.mk none)
        = fallbackText ∧
    SrcApp.extractBotResponseText (GenerateContentResult.mk (some []))
        = fallbackText ∧
    SrcApp.extractBotResponseText
        (GenerateContentResult.mk (some [Candidate.mk none]))
        = fallbackText ∧
    SrcApp.extractBotResponseText
        (GenerateContentResult.mk
          (some [Candidate.mk (some (Content.mk none))]))
        = fallbackText ∧
    SrcApp.extractBotResponseText
        (GenerateContentResult.mk
          (some [Candidate.mk (some (Content.mk (some [])))]))
        = fallbackText ∧
    ProxyApp.extractBotResponseText (GenerateContentResult.mk none)
        = fallbackText ∧
    ProxyApp.extractBotResponseText (GenerateContentResult.mk (some []))
        = fallbackText ∧
    ProxyApp.extractBotResponseText
        (GenerateContentResult.mk
          (some [Candidate.mk (some (Content.mk (some [])))]))
        = fallbackText := by
  refine ⟨?_, ?_, rfl, rfl, rfl, rfl, rfl, rfl, rfl, rfl⟩
  · simp [SrcApp.extractBotResponseText, hc, hct, hp]
  · simp [ProxyApp.extractBotResponseText, hc, hct, hp, hne]

/-- Claim C7, witness at the well-formed success payload. -/
theorem extraction_first_text_part_witness :
    SrcApp.extractBotResponseText goodBody = "The success text" ∧
    ProxyApp.extractBotResponseText goodBody = "The success text" ∧
    SrcApp.extractBotResponseText (GenerateContentResult.mk none)
        = fallbackText ∧
    SrcApp.extractBotResponseText (GenerateContentResult.mk (some []))
        = fallbackText ∧
    SrcApp.extractBotResponseText
        (GenerateContentResult.mk (some [Candidate.mk none]))
        = fallbackText ∧
    SrcApp.extractBotResponseText
        (GenerateContentResult.mk
          (some [Candidate.mk (some (Content.mk none))]))
        = fallbackText ∧
    SrcApp.extractBotResponseText
        (GenerateContentResult.mk
          (some [Candidate.mk (some (Content.mk (some [])))]))
        = fallbackText ∧
    ProxyApp.extractBotResponseText (GenerateContentResult.mk none)
        = fallbackText ∧
    ProxyApp.extractBotResponseText (GenerateContentResult.mk (some []))
        = fallbackText ∧
    ProxyApp.extractBotResponseText
        (GenerateContentResult.mk
          (some [Candidate.mk (some (Content.mk (some [])))]))
        = fallbackText :=
  extraction_first_text_part goodBody
    (Candidate.mk (some (Content.mk (some [TextPart.mk "The success text"]))))
    [] (Content.mk (some [TextPart.mk "The success text"]))
    (TextPart.mk "The success text") [] rfl rfl rfl (by decide)

/-! ### Claim C8 -/

/-- Claim C8: for any sequence of N end-to-end successful sends starting
from the empty collection, the final persisted message list has exactly 2N
messages, arranged as alternating user/bot pairs starting with a user
message, with strictly increasing timestamps. -/
theorem n_sends_final_list (sends : List (String × GenerateContentResult))
    (h : ∀ p ∈ sends, jsTrim p.1 ≠ "") :
    (SrcApp.runSends emptyStore sends).docs.length = 2 * sends.length ∧
    userBotPairs (SrcApp.runSends emptyStore sends).docs = true ∧
    (SrcApp.runSends emptyStore sends).docs.Pairwise
      (fun a b => a.timestamp < b.timestamp) := by
  obtain ⟨hlen, hpairs, hsorted, _⟩ :=
    SrcApp.runSends_inv sends emptyStore h (by decide)
      (by simp [emptyStore]) (by simp [emptyStore])
  refine ⟨?_, hpairs, hsorted⟩
  rw [hlen]
  simp [emptyStore]

/-- Claim C8, witness at a concrete two-send run. -/
theorem n_sends_final_list_witness :
    (SrcApp.runSends emptyStore
        [("hi", goodBody), ("how are you", goodBody)]).docs.length
      = 2 * [("hi", goodBody), ("how are you", goodBody)].length ∧
    userBotPairs (SrcApp.runSends emptyStore
        [("hi", goodBody), ("how are you", goodBody)]).docs = true ∧
    (SrcApp.runSends emptyStore
        [("hi", goodBody), ("how are you", goodBody)]).docs.Pairwise
      (fun a b => a.timestamp < b.timestamp) :=
  n_sends_final_list [("hi", goodBody), ("how are you", goodBody)]
    (by decide)

/-! ### Claim C9 -/

/-- Claim C9: an empty snapshot is replaced by the single synthetic bot
welcome message with id welcome-1; the assembly filters it out (assembling
from the welcome-only list yields just the new input turn, and every
transcript turn is either the new input turn or comes from a non-welcome
message), and the welcome message is never written to the store by any run
of the pipeline. -/
theorem welcome_never_sent_or_stored (msgs : List Message) (input : String)
    (t : Turn) (sends : List (String × GenerateContentResult))
    (ht : t ∈ SrcApp.chatHistory msgs input) :
    SrcApp.applySnapshot [] = [SrcApp.welcomeMessage] ∧
    SrcApp.chatHistory (SrcApp.applySnapshot []) input
        = [Turn.mk Role.user input] ∧
    (t = Turn.mk Role.user input ∨
      ∃ m, m ∈ msgs ∧ m.id ≠ "welcome-1" ∧ t = toTurn m) ∧
    SrcApp.welcomeMessage ∉ (SrcApp.runSends emptyStore sends).docs := by
  refine ⟨rfl, ?_, ?_, ?_⟩
  · simp [SrcApp.applySnapshot, SrcApp.chatHistory, SrcApp.welcomeMessage]
  · rw [SrcApp.chatHistory] at ht
    rcases List.mem_append.mp ht with hmem | hmem
    · right
      obtain ⟨m, hmf, htm⟩ := List.mem_map.mp hmem
      obtain ⟨hmm, hf⟩ := List.mem_filter.mp hmf
      exact ⟨m, hmm, by simpa using hf, htm.symm⟩
    · left
      simpa using hmem
  · intro hmem
    exact SrcApp.runSends_no_welcome sends emptyStore
      (by simp [emptyStore]) SrcApp.welcomeMessage hmem rfl

/-- Claim C9, witness at a concrete transcript membership and run. -/
theorem welcome_never_sent_or_stored_witness :
    SrcApp.applySnapshot [] = [SrcApp.welcomeMessage] ∧
    SrcApp.chatHistory (SrcApp.applySnapshot []) "hi"
        = [Turn.mk Role.user "hi"] ∧
    (Turn.mk Role.user "hi" = Turn.mk Role.user "hi" ∨
      ∃ m, m ∈ ([] : List Message) ∧ m.id ≠ "welcome-1" ∧
        Turn.mk Role.user "hi" = toTurn m) ∧
    SrcApp.welcomeMessage
      ∉ (SrcApp.runSends emptyStore [("hi", goodBody)]).docs :=
  welcome_never_sent_or_stored [] "hi" (Turn.mk Role.user "hi")
    [("hi", goodBody)] (by decide)

/-! ### Claim C10 -/

/-- Claim C10: persisted bot-authored error Messages have sender bot and
are not excluded by the conversation assembly — every bot message other
than the welcome message reappears in later transcripts as a role-model
turn; in particular the error reply persisted by a failed src/App.js send
enters the next transcript, and the isError-flagged error message persisted
by a failed src/src/App.js send (whose variant filters nothing) does
too. -/
theorem error_messages_fed_back (msgs : List Message) (input : String)
    (m : Message) (hm : m ∈ msgs) (hid : m.id ≠ "welcome-1")
    (hs : m.sender = Sender.bot) :
    Turn.mk Role.model m.text ∈ SrcApp.chatHistory msgs input ∧
    Turn.mk Role.model SrcApp.errorReplyText ∈
      SrcApp.chatHistory
        (SrcApp.applySnapshot
          (SrcApp.handleSendMessage
            (SrcApp.AppState.mk (some "u1") [] "hi" false) emptyStore
            (SendEnv.mk true FetchOutcome.networkFailure true
              true)).store.docs)
        "next question" ∧
    ((ProxyApp.handleSendMessage
          (ProxyApp.AppState.mk (some "u1") [] "hey" false none) emptyStore
          (SendEnv.mk true FetchOutcome.networkFailure true true)
          none).store.docs.getLast?
        = some (Message.mk (storeDocId 1)
            ("An error occurred: Failed to fetch") Sender.bot 1 true) ∧
      Turn.mk Role.model ("An error occurred: Failed to fetch") ∈
        ProxyApp.chatHistory
          (ProxyApp.handleSendMessage
            (ProxyApp.AppState.mk (some "u1") [] "hey" false none)
            emptyStore
            (SendEnv.mk true FetchOutcome.networkFailure true true)
            none).store.docs
          "next") :=
  ⟨SrcApp.mem_chatHistory_of_bot msgs input m hm hid hs, by decide,
    by decide, by decide⟩

/-- Claim C10, witness at a concrete isError-flagged bot message. -/
theorem error_messages_fed_back_witness :
    Turn.mk Role.model "oops" ∈
      SrcApp.chatHistory [Message.mk "m9" "oops" Sender.bot 5 true]
        "next" ∧
    Turn.mk Role.model SrcApp.errorReplyText ∈
      SrcApp.chatHistory
        (SrcApp.applySnapshot
          (SrcApp.handleSendMessage
            (SrcApp.AppState.mk (some "u1") [] "hi" false) emptyStore
            (SendEnv.mk true FetchOutcome.networkFailure true
              true)).store.docs)
        "next question" ∧
    ((ProxyApp.handleSendMessage
          (ProxyApp.AppState.mk (some "u1") [] "hey" false none) emptyStore
          (SendEnv.mk true FetchOutcome.networkFailure true true)
          none).store.docs.getLast?
        = some (Message.mk (storeDocId 1)
            ("An error occurred: Failed to fetch") Sender.bot 1 true) ∧
      Turn.mk Role.model ("An error occurred: Failed to fetch") ∈
        ProxyApp.chatHistory
          (ProxyApp.handleSendMessage
            (ProxyApp.AppState.mk (some "u1") [] "hey" false none)
            emptyStore
            (SendEnv.mk true FetchOutcome.networkFailure true true)
            none).store.docs
          "next") :=
  error_messages_fed_back [Message.mk "m9" "oops" Sender.bot 5 true]
    "next" (Message.mk "m9" "oops" Sender.bot 5 true)
    (by decide) (by decide) rfl
